import Mathlib

/-!
# Voice-capture control of the Pizza_AI frontend: shallow embedding

This file embeds the two shipped revisions of the `VoiceButton` voice-capture
control and proves/refutes the spec's claims about it.

* The *enhanced* revision (the file with toast notifications, the cached
  permission probe `testMicrophonePermission`, the secure-context check, and
  trimming of the forwarded transcript).  Its event handlers are embedded as
  `handleEventE`, its `toggleListening` as `toggleSyncE`/`toggleResumeE`/
  `toggleE`, its mount-time probe as `testMicrophonePermissionE`, and its
  initialization effect as `initComponentE`.
* The *simple* revision (`frontend/src/components/VoiceButton.tsx`), embedded
  as `handleEventS` and `toggleSyncS`.

Event handlers are pure functions `CaptureState → Event → CaptureState × List
Action`: the component state after the handler runs together with the ordered
list of externally visible effects the handler performs (host callbacks,
session start/stop requests, media-track stops, permission probes, toast
notifications).  `console.log` calls, toast descriptions and durations, and
the confidence score (read only for logging) are elided, as none of the
claims mention them.  A speech-recognition result event is embedded as the
list of segments the handler's loop examines, i.e. `results[resultIndex..]`
in arrival order.
-/

namespace PizzaVoice

/-- One speech-recognition result segment: its transcript text and whether
the engine marked it final.  (The confidence score is read only for logging
in the source and is elided.) -/
structure Segment where
  text : String
  isFinal : Bool
deriving Repr, DecidableEq

/-- Toast severity, mirroring the `variant` field of the source's `toast`
calls. -/
inductive Variant where
  | std
  | destructive
deriving Repr, DecidableEq

/-- Externally visible effects an event handler or action can perform, in
the order the source performs them. -/
inductive Action where
  /-- `onVoiceInput(text)` host callback. -/
  | voiceInput (text : String)
  /-- `onSpeechStart()` host callback. -/
  | speechStart
  /-- `onSpeechEnd()` host callback. -/
  | speechEnd
  /-- `recognition.stop()` request. -/
  | sessionStop
  /-- `recognition.start()` request. -/
  | sessionStart
  /-- a `navigator.mediaDevices.getUserMedia` permission probe begins. -/
  | permissionProbe
  /-- one acquired media-stream track is stopped (`track.stop()`). -/
  | trackStop
  /-- a toast notification with the given title and severity. -/
  | toastNote (title : String) (variant : Variant)
deriving Repr, DecidableEq

/-- Adapter error codes (`event.error`) distinguished by the source. -/
inductive ErrorCode where
  | noSpeech
  | audioCapture
  | notAllowed
  | network
  | serviceNotAllowed
  | other (code : String)
deriving Repr, DecidableEq

/-- Adapter events delivered to the component's handlers. -/
inductive Event where
  | started
  | result (segs : List Segment)
  | speechDetected
  | speechEnded
  | ended
  | erred (code : ErrorCode)
deriving Repr, DecidableEq

/-- React state of the component (both revisions; the simple revision does
not use `hasPermission`/`isInitialized`). `recognitionReady` models
`recognitionRef.current !== null`. -/
structure CaptureState where
  isListening : Bool
  isSupported : Bool
  hasPermission : Option Bool
  recognitionReady : Bool
  isInitialized : Bool
deriving Repr, DecidableEq

/-- JS `String.prototype.trim()`: remove leading and trailing whitespace.
Embedded structurally over the character list so that it is kernel
computable (for the ASCII whitespace the claims exercise this agrees with
the JS definition). -/
def jsTrim (s : String) : String :=
  ⟨((s.data.dropWhile Char.isWhitespace).reverse.dropWhile Char.isWhitespace).reverse⟩

/-- The `finalTranscript` accumulation loop of both `onresult` handlers:
starting from the empty string, append `results[i][0].transcript` for each
examined segment marked final, in arrival order. -/
def finalTranscript (segs : List Segment) : String :=
  segs.foldl (fun acc s => if s.isFinal then acc ++ s.text else acc) ""

/-- Event handlers of the enhanced revision.

* `onstart`: `setIsListening(true)`, `handleSpeechStart()`, then a
  "Listening..." toast (default severity).
* `onresult`: accumulate `finalTranscript`; if its trim is non-empty
  (JS truthiness of `finalTranscript.trim()`), call
  `handleVoiceInput(finalTranscript.trim())` then `recognition.stop()`.
* `onend`: `setIsListening(false)`, `handleSpeechEnd()`.
* `onerror`: `setIsListening(false)`, `handleSpeechEnd()`, classify the code
  (`not-allowed` also sets `hasPermission` to false; `no-speech` selects the
  default toast severity, every other code the destructive one), then a
  "Voice input error" toast.
* `onspeechstart` / `onspeechend`: `console.log` only — no state change, no
  effect. -/
def handleEventE (s : CaptureState) : Event → CaptureState × List Action
  | .started =>
      ({ s with isListening := true },
       [.speechStart, .toastNote "Listening..." .std])
  | .result segs =>
      let ft := finalTranscript segs
      if jsTrim ft ≠ "" then (s, [.voiceInput (jsTrim ft), .sessionStop])
      else (s, [])
  | .speechDetected => (s, [])
  | .speechEnded => (s, [])
  | .ended => ({ s with isListening := false }, [.speechEnd])
  | .erred code =>
      let s1 : CaptureState := { s with isListening := false }
      let s2 : CaptureState :=
        if code = .notAllowed then { s1 with hasPermission := some false } else s1
      let v : Variant := if code = .noSpeech then .std else .destructive
      (s2, [.speechEnd, .toastNote "Voice input error" v])

/-- Event handlers of the simple revision (`VoiceButton.tsx`).

Differences from the enhanced revision: `onstart` shows no toast;
`onresult` forwards `finalTranscript` UNTRIMMED (the trim is applied only in
the emptiness check); `onerror` only logs the code, shows no toast and does
not touch permission state; `onspeechstart`/`onspeechend` log only. -/
def handleEventS (s : CaptureState) : Event → CaptureState × List Action
  | .started => ({ s with isListening := true }, [.speechStart])
  | .result segs =>
      let ft := finalTranscript segs
      if jsTrim ft ≠ "" then (s, [.voiceInput ft, .sessionStop])
      else (s, [])
  | .speechDetected => (s, [])
  | .speechEnded => (s, [])
  | .ended => ({ s with isListening := false }, [.speechEnd])
  | .erred _ => ({ s with isListening := false }, [.speechEnd])

/-- Sequential delivery of a list of adapter events to the enhanced
revision's handlers, collecting the performed effects in order.  Events are
processed run-to-completion, one at a time, matching the single-threaded
browser event loop. -/
def processEventsE (s : CaptureState) : List Event → CaptureState × List Action
  | [] => (s, [])
  | e :: rest =>
      let p := handleEventE s e
      let q := processEventsE p.1 rest
      (q.1, p.2 ++ q.2)

/-- The browser location relevant to the secure-context check. -/
structure Loc where
  protocol : String
  hostname : String
deriving Repr, DecidableEq

/-- The enhanced revision's secure-context test:
`location.protocol === 'https:' || location.hostname === 'localhost'`. -/
def isSecure (loc : Loc) : Bool :=
  loc.protocol = "https:" || loc.hostname = "localhost"

/-- Loopback hostnames, as the spec uses the term ("a loopback host"). -/
def isLoopbackHost (h : String) : Bool :=
  h = "localhost" || h = "127.0.0.1" || h = "::1"

/-- The state a freshly constructed component starts from (all React
`useState` initializers). -/
def initState : CaptureState :=
  { isListening := false, isSupported := false, hasPermission := none
    recognitionReady := false, isInitialized := false }

/-- The enhanced revision's initialization effect: if an engine is available
but the context is insecure, warn with a destructive toast, force
`isSupported` to false and return before any recognition object is created;
if no engine is available, show the "not supported" toast; otherwise create
the recognition object (so `recognitionReady` becomes true) and mark the
component supported.  (The secure branch also kicks off the mount-time
permission probe, modelled separately as `testMicrophonePermissionE`.) -/
def initComponentE (engineAvailable : Bool) (loc : Loc) : CaptureState × List Action :=
  if engineAvailable then
    if !isSecure loc then
      ({ initState with isSupported := false, isInitialized := true },
       [.toastNote "Voice input requires HTTPS" .destructive])
    else
      ({ initState with isSupported := true, recognitionReady := true,
                        isInitialized := true }, [])
  else
    ({ initState with isSupported := false, isInitialized := true },
     [.toastNote "Voice input not supported" .destructive])

/-- The enhanced revision's mount-time permission probe
(`testMicrophonePermission`).  `outcome` is the result of the awaited
`getUserMedia` call: `some n` means a stream with `n` audio tracks was
granted (each of which the source then stops), `none` means the call threw
(denied / unavailable — nothing was acquired).  If permission was already
tested (`hasPermission !== null`) the probe returns without touching the
microphone. -/
def testMicrophonePermissionE (s : CaptureState) (outcome : Option Nat) :
    CaptureState × List Action :=
  if s.hasPermission ≠ none then (s, [])
  else
    match outcome with
    | some tracks =>
        ({ s with hasPermission := some true },
         .permissionProbe :: List.replicate tracks .trackStop)
    | none => ({ s with hasPermission := some false }, [.permissionProbe])

/-- The synchronous phase of the enhanced revision's `toggleListening`,
up to (and including) issuing the `getUserMedia` probe: bail out if no
recognition object exists or the component is unsupported; request
`recognition.stop()` if currently listening; otherwise begin the awaited
permission probe.  React state is not modified before the `await`. -/
def toggleSyncE (s : CaptureState) : CaptureState × List Action :=
  if !s.recognitionReady || !s.isSupported then (s, [])
  else if s.isListening then (s, [.sessionStop])
  else (s, [.permissionProbe])

/-- The resumption of the enhanced revision's `toggleListening` after its
`getUserMedia` probe resolves.  On grant (`some n`): `setHasPermission(true)`,
stop each of the `n` acquired tracks, then `recognition.start()`.  On denial
(`none`): `setHasPermission(false)` and a destructive toast. -/
def toggleResumeE (s : CaptureState) : Option Nat → CaptureState × List Action
  | some tracks =>
      ({ s with hasPermission := some true },
       List.replicate tracks .trackStop ++ [.sessionStart])
  | none =>
      ({ s with hasPermission := some false },
       [.toastNote "Microphone access required" .destructive])

/-- A whole uninterrupted `toggleListening` call of the enhanced revision:
the synchronous phase followed, when that phase reached the `await`, by the
resumption. -/
def toggleE (s : CaptureState) (outcome : Option Nat) : CaptureState × List Action :=
  if !s.recognitionReady || !s.isSupported then (s, [])
  else if s.isListening then (s, [.sessionStop])
  else
    let p := toggleResumeE s outcome
    (p.1, .permissionProbe :: p.2)

/-- Two `toggleListening` invocations whose synchronous phases both run
before either `getUserMedia` promise resolves (the single-threaded event
loop interleaving: call 1 suspends at its `await`, call 2 runs its
synchronous phase and suspends, then the probes resolve in order). -/
def doubleToggleE (s : CaptureState) (o1 o2 : Option Nat) :
    CaptureState × List Action :=
  let p1 := toggleSyncE s
  let p2 := toggleSyncE p1.1
  let p3 := toggleResumeE p2.1 o1
  let p4 := toggleResumeE p3.1 o2
  (p4.1, p1.2 ++ p2.2 ++ p3.2 ++ p4.2)

/-- The state of a supported, initialized, not-yet-listening component whose
recognition object exists: the state from which a session is normally
started. -/
def readyState : CaptureState :=
  { isListening := false, isSupported := true, hasPermission := none
    recognitionReady := true, isInitialized := true }

/-- Number of `onVoiceInput` invocations in a list of effects. -/
def countVoice (l : List Action) : Nat :=
  (l.filter fun a => match a with | .voiceInput _ => true | _ => false).length

/-- Number of `recognition.stop()` requests in a list of effects. -/
def countStop (l : List Action) : Nat :=
  (l.filter fun a => match a with | .sessionStop => true | _ => false).length

/-- Number of `onSpeechStart` invocations in a list of effects. -/
def countSpeechStart (l : List Action) : Nat :=
  (l.filter fun a => match a with | .speechStart => true | _ => false).length

/-- Number of `onSpeechEnd` invocations in a list of effects. -/
def countSpeechEnd (l : List Action) : Nat :=
  (l.filter fun a => match a with | .speechEnd => true | _ => false).length

/-- Number of toast notifications (of any severity) in a list of effects. -/
def countToast (l : List Action) : Nat :=
  (l.filter fun a => match a with | .toastNote _ _ => true | _ => false).length

/-- Number of permission probes in a list of effects. -/
def countProbe (l : List Action) : Nat :=
  (l.filter fun a => match a with | .permissionProbe => true | _ => false).length

/-- Number of `recognition.start()` requests in a list of effects. -/
def countStart (l : List Action) : Nat :=
  (l.filter fun a => match a with | .sessionStart => true | _ => false).length

/-- Number of `track.stop()` calls in a list of effects. -/
def countTrackStop (l : List Action) : Nat :=
  (l.filter fun a => match a with | .trackStop => true | _ => false).length

/-- Whether an adapter event is `onend` or `onerror` — the two events whose
handlers invoke `onSpeechEnd`. -/
def isEndOrError : Event → Bool
  | .ended => true
  | .erred _ => true
  | _ => false

/-- Whether an adapter event is `onstart`. -/
def isStartEvent : Event → Bool
  | .started => true
  | _ => false

/-! ## Helper lemmas -/

theorem join_cons (a : String) (l : List String) :
    String.join (a :: l) = a ++ String.join l := by
  apply String.ext
  simp

theorem finalTranscript_go (segs : List Segment) (acc : String) :
    segs.foldl (fun a s => if s.isFinal then a ++ s.text else a) acc =
      acc ++ String.join ((segs.filter fun s => s.isFinal).map fun s => s.text) := by
  induction segs generalizing acc with
  | nil => simp [String.join]
  | cons x rest ih =>
      by_cases h : x.isFinal
      · simp only [List.foldl_cons, h, if_true, List.filter_cons, List.map_cons, join_cons]
        rw [ih, String.append_assoc]
      · simp only [List.foldl_cons, h, if_false, List.filter_cons]
        simp [h, ih]

theorem finalTranscript_eq_join (segs : List Segment) :
    finalTranscript segs =
      String.join ((segs.filter fun s => s.isFinal).map fun s => s.text) := by
  have h := finalTranscript_go segs ""
  simpa [finalTranscript] using h

theorem countSpeechEnd_append (a b : List Action) :
    countSpeechEnd (a ++ b) = countSpeechEnd a + countSpeechEnd b := by
  simp [countSpeechEnd, List.filter_append]

theorem countSpeechStart_append (a b : List Action) :
    countSpeechStart (a ++ b) = countSpeechStart a + countSpeechStart b := by
  simp [countSpeechStart, List.filter_append]

theorem countSpeechEnd_handleEventE (s : CaptureState) (e : Event) :
    countSpeechEnd (handleEventE s e).2 = if isEndOrError e then 1 else 0 := by
  cases e <;>
    simp only [handleEventE, isEndOrError] <;>
    first
      | rfl
      | (split <;> rfl)

theorem countSpeechStart_handleEventE (s : CaptureState) (e : Event) :
    countSpeechStart (handleEventE s e).2 = if isStartEvent e then 1 else 0 := by
  cases e <;>
    simp only [handleEventE, isStartEvent] <;>
    first
      | rfl
      | (split <;> rfl)

theorem countSpeechEnd_processEventsE (s : CaptureState) (evs : List Event) :
    countSpeechEnd (processEventsE s evs).2 = (evs.filter isEndOrError).length := by
  induction evs generalizing s with
  | nil => rfl
  | cons e rest ih =>
      simp only [processEventsE, countSpeechEnd_append, countSpeechEnd_handleEventE,
        List.filter_cons, ih]
      split <;> simp [Nat.add_comm]

theorem countSpeechStart_processEventsE (s : CaptureState) (evs : List Event) :
    countSpeechStart (processEventsE s evs).2 = (evs.filter isStartEvent).length := by
  induction evs generalizing s with
  | nil => rfl
  | cons e rest ih =>
      simp only [processEventsE, countSpeechStart_append, countSpeechStart_handleEventE,
        List.filter_cons, ih]
      split <;> simp [Nat.add_comm]

theorem countProbe_append (a b : List Action) :
    countProbe (a ++ b) = countProbe a + countProbe b := by
  simp [countProbe, List.filter_append]

theorem countStart_append (a b : List Action) :
    countStart (a ++ b) = countStart a + countStart b := by
  simp [countStart, List.filter_append]

theorem countProbe_replicate_trackStop (n : Nat) :
    countProbe (List.replicate n .trackStop) = 0 := by
  induction n with
  | zero => rfl
  | succ m ih => simp [List.replicate_succ, countProbe]

theorem countStart_replicate_trackStop (n : Nat) :
    countStart (List.replicate n .trackStop) = 0 := by
  induction n with
  | zero => rfl
  | succ m ih => simp [List.replicate_succ, countStart]

theorem voiceInput_handleEventS (s : CaptureState) (segs : List Segment) (t : String)
    (h : Action.voiceInput t ∈ (handleEventS s (.result segs)).2) :
    t = finalTranscript segs := by
  by_cases hc : jsTrim (finalTranscript segs) ≠ ""
  · simp only [handleEventS, if_pos hc] at h
    simpa using h
  · simp only [handleEventS, if_neg hc] at h
    simp at h

theorem voiceInput_handleEventE (s : CaptureState) (segs : List Segment) (t : String)
    (h : Action.voiceInput t ∈ (handleEventE s (.result segs)).2) :
    t = jsTrim (finalTranscript segs) ∧ jsTrim (finalTranscript segs) ≠ "" := by
  by_cases hc : jsTrim (finalTranscript segs) ≠ ""
  · refine ⟨?_, hc⟩
    simp only [handleEventE, if_pos hc] at h
    simpa using h
  · simp only [handleEventE, if_neg hc] at h
    simp at h

/-! ## Claims -/

/-- Claim C1, counterexample: a session in which the adapter delivers two
onResult events, each carrying a non-empty final segment, before onEnd
invokes onVoiceInput twice — the handler has no per-session latch, so the
spec's "at most once per session" fails for this delivered sequence. -/
theorem c1_double_forward_counterexample :
    countVoice (processEventsE readyState
      [.started, .result [⟨"hello", true⟩], .result [⟨"world", true⟩], .ended]).2 = 2 := by
  decide

/-- Claim C1 (amended): onVoiceInput is invoked at most once per delivered
adapter event (and the forwarding path requests session.stop in the same
handler run: per event, forwards and stop requests are equinumerous), but
there is no per-session latch, so a session in which the adapter delivers
several final results forwards several times. -/
theorem c1_forward_once_per_event (s : CaptureState) (e : Event) :
    countVoice (handleEventE s e).2 ≤ 1
    ∧ countVoice (handleEventS s e).2 ≤ 1
    ∧ countVoice (handleEventE s e).2 = countStop (handleEventE s e).2
    ∧ countVoice (handleEventS s e).2 = countStop (handleEventS s e).2 := by
  cases e with
  | started => exact ⟨Nat.zero_le 1, Nat.zero_le 1, rfl, rfl⟩
  | result segs =>
      by_cases hc : jsTrim (finalTranscript segs) ≠ ""
      · simp only [handleEventE, handleEventS, if_pos hc]
        exact ⟨Nat.le_refl 1, Nat.le_refl 1, rfl, rfl⟩
      · simp only [handleEventE, handleEventS, if_neg hc]
        exact ⟨Nat.zero_le 1, Nat.zero_le 1, rfl, rfl⟩
  | speechDetected => exact ⟨Nat.zero_le 1, Nat.zero_le 1, rfl, rfl⟩
  | speechEnded => exact ⟨Nat.zero_le 1, Nat.zero_le 1, rfl, rfl⟩
  | ended => exact ⟨Nat.zero_le 1, Nat.zero_le 1, rfl, rfl⟩
  | erred code => exact ⟨Nat.zero_le 1, Nat.zero_le 1, rfl, rfl⟩

/-- Claim C2: the text the onResult handlers consider for forwarding is the
in-arrival-order concatenation of exactly the segments marked final — the
simple revision forwards it verbatim, and concatenation happens before the
non-emptiness check; two final segments "large " and "pepperoni" in one
callback yield the forwarded text "large pepperoni" in both revisions. -/
theorem c2_concatenation_of_final_segments :
    (∀ segs : List Segment,
        finalTranscript segs =
          String.join ((segs.filter fun s => s.isFinal).map fun s => s.text))
    ∧ (∀ (s : CaptureState) (segs : List Segment) (t : String),
        Action.voiceInput t ∈ (handleEventS s (.result segs)).2 → t = finalTranscript segs)
    ∧ (handleEventE readyState (.result [⟨"large ", true⟩, ⟨"pepperoni", true⟩])).2
        = [.voiceInput "large pepperoni", .sessionStop]
    ∧ (handleEventS readyState (.result [⟨"large ", true⟩, ⟨"pepperoni", true⟩])).2
        = [.voiceInput "large pepperoni", .sessionStop] := by
  exact ⟨finalTranscript_eq_join, voiceInput_handleEventS, by decide, by decide⟩

/-- Claim C2, witness. -/
theorem c2_concatenation_witness :
    ("large pepperoni" : String) = finalTranscript [⟨"large ", true⟩, ⟨"pepperoni", true⟩] :=
  c2_concatenation_of_final_segments.2.1 readyState
    [⟨"large ", true⟩, ⟨"pepperoni", true⟩] "large pepperoni" (by decide)

/-- Claim C3, counterexample: the enhanced revision forwards the single
character "a" (the claim says a single-character candidate is never
forwarded), and the simple revision forwards "  pizza please  " verbatim,
untrimmed (the claim says the forwarded text is trimmed). -/
theorem c3_min_length_counterexample :
    (handleEventE readyState (.result [⟨"a", true⟩])).2
        = [.voiceInput "a", .sessionStop]
    ∧ (handleEventS readyState (.result [⟨"  pizza please  ", true⟩])).2
        = [.voiceInput "  pizza please  ", .sessionStop] := by
  decide

/-- Claim C3 (amended): the enhanced revision forwards the trimmed
concatenation and never forwards a candidate that trims to empty (so
"  pizza please  " is forwarded as "pizza please"), but there is no
minimum-length rule — a single character passes the check — and the simple
revision forwards the concatenation untrimmed. -/
theorem c3_trim_and_empty_check :
    (∀ (s : CaptureState) (segs : List Segment) (t : String),
        Action.voiceInput t ∈ (handleEventE s (.result segs)).2 →
          t = jsTrim (finalTranscript segs) ∧ jsTrim (finalTranscript segs) ≠ "")
    ∧ (∀ (s : CaptureState) (segs : List Segment) (t : String),
        Action.voiceInput t ∈ (handleEventS s (.result segs)).2 → t = finalTranscript segs)
    ∧ (handleEventE readyState (.result [⟨"  pizza please  ", true⟩])).2
        = [.voiceInput "pizza please", .sessionStop] := by
  exact ⟨voiceInput_handleEventE, voiceInput_handleEventS, by decide⟩

/-- Claim C3, witness. -/
theorem c3_trim_witness :
    ("pizza please" : String) = jsTrim (finalTranscript [⟨"  pizza please  ", true⟩])
      ∧ jsTrim (finalTranscript [⟨"  pizza please  ", true⟩]) ≠ "" :=
  c3_trim_and_empty_check.1 readyState [⟨"  pizza please  ", true⟩] "pizza please" (by decide)

/-- Claim C4, counterexample: a session in which speech is detected and then
ends with no final result never has session.stop() invoked by the component
(the spec claims exactly one stop within 1500 ms) and stays listening
instead of reaching idle — there is no grace timer in the code. -/
theorem c4_no_grace_timer_counterexample :
    countStop (processEventsE readyState [.started, .speechDetected, .speechEnded]).2 = 0
    ∧ (processEventsE readyState [.started, .speechDetected, .speechEnded]).1.isListening
        = true := by
  decide

/-- Claim C4 (amended): the onspeechend and onspeechstart handlers of both
revisions only log — they change no state, start or cancel no timer, and
never call session.stop(); the session ends only through the engine's own
onend/onerror. -/
theorem c4_speechend_handlers_inert (s : CaptureState) :
    handleEventE s .speechEnded = (s, [])
    ∧ handleEventE s .speechDetected = (s, [])
    ∧ handleEventS s .speechEnded = (s, [])
    ∧ handleEventS s .speechDetected = (s, []) :=
  ⟨rfl, rfl, rfl, rfl⟩

/-- Claim C5: when the recognition engine exists but the context is
insecure (scheme not https and hostname not a loopback host), the enhanced
revision initializes with isSupported = false and no recognition object, so
every toggle() call is a no-op: no permission probe, no session start, no
state change. -/
theorem c5_insecure_context_unsupported (loc : Loc)
    (hp : loc.protocol ≠ "https:") (hl : isLoopbackHost loc.hostname = false) :
    (initComponentE true loc).1.isSupported = false
    ∧ (initComponentE true loc).1.recognitionReady = false
    ∧ ∀ outcome : Option Nat,
        toggleE (initComponentE true loc).1 outcome = ((initComponentE true loc).1, []) := by
  have hh : loc.hostname ≠ "localhost" := by
    intro h
    simp [isLoopbackHost, h] at hl
  have hs : isSecure loc = false := by
    simp [isSecure, hp, hh]
  refine ⟨?_, ?_, ?_⟩ <;>
    simp [initComponentE, hs, toggleE, initState]

/-- Claim C5, witness: http scheme with hostname example.com. -/
theorem c5_insecure_witness :
    (initComponentE true ⟨"http:", "example.com"⟩).1.isSupported = false
    ∧ toggleE (initComponentE true ⟨"http:", "example.com"⟩).1 (some 1)
        = ((initComponentE true ⟨"http:", "example.com"⟩).1, []) :=
  ⟨(c5_insecure_context_unsupported ⟨"http:", "example.com"⟩ (by decide) (by decide)).1,
   (c5_insecure_context_unsupported ⟨"http:", "example.com"⟩ (by decide) (by decide)).2.2
     (some 1)⟩

/-- Claim C6, counterexample: on a no-speech error during a session the
enhanced revision raises one user-visible toast (title "Voice input error",
default severity), so the error is not absorbed with no notification as the
claim states. -/
theorem c6_no_speech_toast_counterexample :
    countToast (handleEventE { readyState with isListening := true }
      (.erred .noSpeech)).2 = 1 := by
  decide

/-- Claim C6 (amended): on a no-speech error both revisions return to idle
(isListening becomes false) and invoke onSpeechEnd, and the simple revision
shows nothing; but the enhanced revision raises exactly one toast for it —
with the default (non-destructive) severity, unlike every other error code,
which gets a destructive toast. -/
theorem c6_no_speech_behavior (s : CaptureState) :
    handleEventE s (.erred .noSpeech)
        = ({ s with isListening := false },
           [.speechEnd, .toastNote "Voice input error" .std])
    ∧ handleEventS s (.erred .noSpeech) = ({ s with isListening := false }, [.speechEnd])
    ∧ handleEventE s (.erred .network)
        = ({ s with isListening := false },
           [.speechEnd, .toastNote "Voice input error" .destructive]) :=
  ⟨rfl, rfl, rfl⟩

/-- Claim C7, counterexample: a session that receives onError and then the
engine's subsequent onEnd invokes onSpeechEnd twice — both handlers call it
unconditionally and no flag prevents the duplicate. -/
theorem c7_double_speechend_counterexample :
    countSpeechEnd (processEventsE readyState
      [.started, .erred .network, .ended]).2 = 2 := by
  decide

/-- Claim C7 (amended): onSpeechStart is invoked exactly once per onStart
event and onSpeechEnd exactly once per onEnd or onError event; hence in a
session delivering one onStart and exactly one of onEnd/onError they occur
once each, in that order, with onVoiceInput between them on success (shown
by the canonical successful session), but a session receiving both onError
and onEnd invokes onSpeechEnd twice. -/
theorem c7_speech_callback_counts :
    (∀ (s : CaptureState) (evs : List Event),
        countSpeechEnd (processEventsE s evs).2 = (evs.filter isEndOrError).length
        ∧ countSpeechStart (processEventsE s evs).2 = (evs.filter isStartEvent).length)
    ∧ (processEventsE readyState [.started, .result [⟨"pizza please", true⟩], .ended]).2
        = [.speechStart, .toastNote "Listening..." .std,
           .voiceInput "pizza please", .sessionStop, .speechEnd] := by
  refine ⟨fun s evs =>
    ⟨countSpeechEnd_processEventsE s evs, countSpeechStart_processEventsE s evs⟩, by decide⟩

/-- Claim C8, counterexample: two toggle() calls whose synchronous phases
both run before either getUserMedia promise resolves start two permission
probes and, after both grants, two session.start() calls — the state machine
has no AwaitingPermission guard. -/
theorem c8_double_toggle_counterexample :
    countProbe (doubleToggleE readyState (some 1) (some 1)).2 = 2
    ∧ countStart (doubleToggleE readyState (some 1) (some 1)).2 = 2 := by
  decide

/-- Claim C8 (amended): the synchronous phase of toggleListening leaves the
component state unchanged and records no pending probe, so a second toggle()
issued while the first getUserMedia is still awaited behaves exactly like
the first: it starts a second probe, and after both probes grant,
session.start() is invoked twice. -/
theorem c8_no_pending_probe_guard (s : CaptureState) (n : Nat)
    (h1 : s.recognitionReady = true) (h2 : s.isSupported = true)
    (h3 : s.isListening = false) :
    toggleSyncE s = (s, [.permissionProbe])
    ∧ countProbe (doubleToggleE s (some n) (some n)).2 = 2
    ∧ countStart (doubleToggleE s (some n) (some n)).2 = 2 := by
  have hsync : toggleSyncE s = (s, [.permissionProbe]) := by
    simp [toggleSyncE, h1, h2, h3]
  refine ⟨hsync, ?_, ?_⟩ <;>
    simp [doubleToggleE, hsync, toggleResumeE, countProbe_append, countStart_append,
      countProbe_replicate_trackStop, countStart_replicate_trackStop, countProbe, countStart]

/-- Claim C8, witness. -/
theorem c8_guard_witness :
    toggleSyncE readyState = (readyState, [.permissionProbe])
    ∧ countProbe (doubleToggleE readyState (some 1) (some 1)).2 = 2
    ∧ countStart (doubleToggleE readyState (some 1) (some 1)).2 = 2 :=
  c8_no_pending_probe_guard readyState 1 rfl rfl rfl

/-- Claim C9: both permission-probe sites of the enhanced revision stop
every media-stream track acquired by the probe immediately after it
resolves and before any recognition session is started: the mount-time
probe stops all tracks and never starts a session, and the toggle path
stops all tracks before its single session.start(); a denied probe acquires
nothing and starts nothing. -/
theorem c9_probe_releases_tracks (s : CaptureState) (n : Nat)
    (hperm : s.hasPermission = none) (h1 : s.recognitionReady = true)
    (h2 : s.isSupported = true) (h3 : s.isListening = false) :
    testMicrophonePermissionE s (some n)
        = ({ s with hasPermission := some true },
           .permissionProbe :: List.replicate n .trackStop)
    ∧ testMicrophonePermissionE s none
        = ({ s with hasPermission := some false }, [.permissionProbe])
    ∧ (toggleE s (some n)).2
        = .permissionProbe :: (List.replicate n .trackStop ++ [.sessionStart])
    ∧ (toggleE s none).2
        = [.permissionProbe, .toastNote "Microphone access required" .destructive] := by
  refine ⟨?_, ?_, ?_, ?_⟩ <;>
    simp [testMicrophonePermissionE, hperm, toggleE, toggleResumeE, h1, h2, h3]

/-- Claim C9, witness: a two-track stream. -/
theorem c9_release_witness :
    (toggleE readyState (some 2)).2
      = .permissionProbe :: (List.replicate 2 .trackStop ++ [.sessionStart]) :=
  (c9_probe_releases_tracks readyState 2 rfl rfl rfl rfl).2.2.1

/-- Claim C10: an onResult event whose final-segment concatenation trims to
empty changes nothing in either revision — same state, no forwarded text,
no session.stop(), the session keeps listening; and session.stop() is
requested by the onresult handler exactly when text is forwarded (one stop
per forward), so stop is invoked only on the forwarding path. -/
theorem c10_empty_result_is_noop (s : CaptureState) (segs : List Segment)
    (h : jsTrim (finalTranscript segs) = "") :
    handleEventE s (.result segs) = (s, [])
    ∧ handleEventS s (.result segs) = (s, [])
    ∧ ∀ (s2 : CaptureState) (segs2 : List Segment),
        countStop (handleEventE s2 (.result segs2)).2
            = countVoice (handleEventE s2 (.result segs2)).2
        ∧ countStop (handleEventS s2 (.result segs2)).2
            = countVoice (handleEventS s2 (.result segs2)).2 := by
  refine ⟨?_, ?_, ?_⟩
  · simp [handleEventE, h]
  · simp [handleEventS, h]
  · intro s2 segs2
    by_cases hc : jsTrim (finalTranscript segs2) ≠ ""
    · simp only [handleEventE, handleEventS, if_pos hc]
      exact ⟨rfl, rfl⟩
    · simp only [handleEventE, handleEventS, if_neg hc]
      exact ⟨rfl, rfl⟩

/-- Claim C10, witness: a whitespace-only final segment. -/
theorem c10_noop_witness :
    handleEventE readyState (.result [⟨"   ", true⟩]) = (readyState, [])
    ∧ handleEventS readyState (.result [⟨"   ", true⟩]) = (readyState, []) :=
  ⟨(c10_empty_result_is_noop readyState [⟨"   ", true⟩] (by decide)).1,
   (c10_empty_result_is_noop readyState [⟨"   ", true⟩] (by decide)).2.1⟩

end PizzaVoice
